import Mathlib

/-!
Shallow embedding of the Telugu voice weather app (the React component in
`src/unnamed/part_000`, with `src/src/App.tsx` an earlier variant of the same
component).  The component orchestrates: speech-recognition transcript →
geocoding → weather fetch → agriculture advisory → view-state update → speech
synthesis.  External collaborators (the geocoding HTTP client, the raw weather
provider, the advisory rule table `getAgricultureSuggestions` and the numeral
converter `numberToTelugu`, all in modules outside the snapshot) are kept
abstract as fields of an `Env` record; the orchestration logic itself is
translated line by line from the source.  Speech-synthesis side effects are
reified as a list of `SynthCmd` values which a queue semantics (`runSynth`)
interprets, matching the Web Speech API's queue-with-cancel behaviour.
-/

namespace Shield

/-- Geographic coordinates, the ephemeral result of geocoding. -/
structure Coordinates where
  lat : ℚ
  lon : ℚ
deriving DecidableEq

/-- The `WeatherData` record of `src/types/weather` as used by the component:
location name, temperature (°C), humidity (%), wind speed (km/h) and a
free-text weather description. -/
structure WeatherData where
  location : String
  temperature : ℚ
  humidity : ℚ
  windSpeed : ℚ
  weatherDesc : String
deriving DecidableEq

/-- Raw current-conditions payload of the external weather provider (opaque
collaborator): everything of a `WeatherData` except the display name. -/
structure ProviderConditions where
  temperature : ℚ
  humidity : ℚ
  windSpeed : ℚ
  weatherDesc : String
deriving DecidableEq

/-- The component's React state: `weatherData`, `agricultureTips`,
`isListening`, `error`, `isSpeaking` `useState` hooks, plus the
`transcript` owned by the speech-recognition hook. -/
structure AppState where
  weatherData : Option WeatherData
  agricultureTips : Option String
  isListening : Bool
  error : Option String
  isSpeaking : Bool
  transcript : String
deriving DecidableEq

/-- The state with no reading, no tips, no error, both flags off and an empty
transcript: the component's initial render. -/
def initState : AppState :=
  { weatherData := none, agricultureTips := none, isListening := false
    error := none, isSpeaking := false, transcript := "" }

/-- A speech-synthesis side effect emitted by the component:
`window.speechSynthesis.cancel()` or `window.speechSynthesis.speak(u)` with
the utterance text. -/
inductive SynthCmd where
  | cancel : SynthCmd
  | speak : String → SynthCmd
deriving DecidableEq

/-- External collaborators and browser capabilities, abstract because their
code lives outside the snapshot (`src/services/weatherService`,
`src/utils/teluguNumbers`, `src/utils/weatherSuggestions`, browser APIs). -/
structure Env where
  getCoordinates : String → Option Coordinates
  providerConditions : Coordinates → Option ProviderConditions
  getAgricultureSuggestions : WeatherData → String
  numberToTelugu : ℤ → String
  browserSupportsSpeechRecognition : Bool
  speechSynthesisSupported : Bool

/-- The fixed weather-description → Telugu translation table declared at the
top of the component (nine entries). -/
def weatherDescriptionsTelugu : List (String × String) :=
  [ ("clear sky", "పారదర్శక ఆకాశం")
  , ("few clouds", "కొన్ని మేఘాలు")
  , ("scattered clouds", "చిన్న చిన్న మేఘాలు")
  , ("broken clouds", "పగిలిన మేఘాలు")
  , ("shower rain", "తీవ్ర వర్షం")
  , ("rain", "వర్షం")
  , ("thunderstorm", "ఇరుపులు మేఘాలు")
  , ("snow", "మంచు")
  , ("mist", "మబ్బు") ]

/-- JS `String.prototype.toLowerCase()`: lowercase the string character by
character (the table's keys are ASCII, where this agrees with JS). -/
def toLowerCase (s : String) : String := ⟨s.data.map Char.toLower⟩

/-- `weatherDescriptionsTelugu[desc.toLowerCase()] || desc`: look the
lowercased description up in the table; a missing key (JS `undefined`) or a
falsy value (the empty string) falls back to the original description. -/
def translateWeatherDesc (desc : String) : String :=
  match weatherDescriptionsTelugu.lookup (toLowerCase desc) with
  | some t => if t = "" then desc else t
  | none => desc

/-- JS `Math.round`: round half toward positive infinity. -/
def jsRound (q : ℚ) : ℤ := ⌊q + 1/2⌋

/-- Error message set on lookup failure, also the text of the spoken error
utterance (`'స్థలం కనబడలేదు. దయచేసి మళ్లీ ప్రయత్నించండి.'`). -/
def locationNotFoundMsg : String := "స్థలం కనబడలేదు. దయచేసి మళ్లీ ప్రయత్నించండి."

/-- Error message when the browser lacks speech recognition. -/
def voiceInputUnsupportedMsg : String := "మీ బ్రౌజర్ వాయిస్ ఇన్పుట్‌ను సపోర్ట్ చేయదు."

/-- Error message when the browser lacks speech synthesis. -/
def voiceOutputUnsupportedMsg : String := "మీ బ్రౌజర్ వాయిస్ అవుట్‌పుట్‌ను సపోర్ట్ చేయదు."

/-- Fallback advisory when `getAgricultureSuggestions` returns a falsy value:
`getAgricultureSuggestions(data) || "రైతులకు ప్రత్యేక సూచనలు లేవు."`. -/
def defaultSuggestions : String := "రైతులకు ప్రత్యేక సూచనలు లేవు."

/-- Modelled from the spec: the weather client `getWeatherData` of
`src/services/weatherService` is not in the snapshot.  Per §4.2 it takes the
coordinates and the original place name (for display) and returns a
`WeatherReading`; per §8 the reading's location field is the submitted name's
resolved display name.  We model it as wrapping the opaque provider's
conditions with the given display name; provider failure is `none`. -/
def getWeatherData (env : Env) (coordinates : Coordinates) (location : String) :
    Option WeatherData :=
  (env.providerConditions coordinates).map fun p =>
    { location := location, temperature := p.temperature
      humidity := p.humidity, windSpeed := p.windSpeed
      weatherDesc := p.weatherDesc }

/-- The advisory actually attached to a reading:
`getAgricultureSuggestions(data) || "రైతులకు ప్రత్యేక సూచనలు లేవు."` (JS `||`
replaces the falsy empty string by the default). -/
def effectiveSuggestions (env : Env) (data : WeatherData) : String :=
  if env.getAgricultureSuggestions data = "" then defaultSuggestions
  else env.getAgricultureSuggestions data

/-- The spoken text built inside `speakWeatherInfo`: the backtick template
interpolating the location header, Telugu number-words for the rounded
temperature, humidity and wind speed, the translated description and the
advisory, with the template's literal whitespace. -/
def speakText (numberToTelugu : ℤ → String) (data : WeatherData) (tips : String) :
    String :=
  let locationText :=
    if data.location = "" then "" else data.location ++ " వాతావరణ వివరాలు."
  let tempInTelugu := numberToTelugu (jsRound data.temperature)
  let humidityInTelugu := numberToTelugu (jsRound data.humidity)
  let windSpeedInTelugu := numberToTelugu (jsRound data.windSpeed)
  let weatherDescriptionInTelugu := translateWeatherDesc data.weatherDesc
  "\n        " ++ locationText ++
  "\n        ఉష్ణోగ్రత " ++ tempInTelugu ++ " డిగ్రీల సెల్సియస్." ++
  "\n        వాతావరణం " ++ weatherDescriptionInTelugu ++ "." ++
  "\n        తేమ " ++ humidityInTelugu ++ " శాతం." ++
  "\n        గాలి వేగం " ++ windSpeedInTelugu ++ " కిలోమీటర్లు పర్ గంట." ++
  "\n\n        రైతు సోదరులకు సూచనలు:\n        " ++ tips ++ "\n      "

/-- `speakWeatherInfo(data, tips)`: if synthesis is supported, cancel any
previous speech and speak the template; otherwise set the unsupported-output
error and emit nothing.  (`setIsSpeaking` happens only in the utterance's
start/end/error callbacks, not synchronously here.) -/
def speakWeatherInfo (env : Env) (st : AppState) (data : WeatherData)
    (tips : String) : AppState × List SynthCmd :=
  if env.speechSynthesisSupported then
    (st, [SynthCmd.cancel, SynthCmd.speak (speakText env.numberToTelugu data tips)])
  else
    ({ st with error := some voiceOutputUnsupportedMsg }, [])

/-- `speakErrorMessage()`: speak the fixed Telugu error utterance, but only
when `'speechSynthesis' in window`; no cancel is issued. -/
def speakErrorMessage (env : Env) : List SynthCmd :=
  if env.speechSynthesisSupported then [SynthCmd.speak locationNotFoundMsg]
  else []

/-- `handleLocationSubmit(location)`: clear the error and previous tips, then
geocode, fetch weather, store the reading, compute and store the advisory and
speak; any failure in the awaited calls lands in the catch branch, which sets
the not-found error and speaks the error message. -/
def handleLocationSubmit (env : Env) (st : AppState) (location : String) :
    AppState × List SynthCmd :=
  let st1 := { st with error := none, agricultureTips := none }
  match env.getCoordinates location with
  | none => ({ st1 with error := some locationNotFoundMsg }, speakErrorMessage env)
  | some coordinates =>
    match getWeatherData env coordinates location with
    | none => ({ st1 with error := some locationNotFoundMsg }, speakErrorMessage env)
    | some data =>
      let st2 := { st1 with weatherData := some data }
      let suggestions := effectiveSuggestions env data
      let st3 := { st2 with agricultureTips := some suggestions }
      speakWeatherInfo env st3 data suggestions

/-- `startListening`: refuse with the unsupported-input error when the browser
lacks speech recognition; otherwise set the listening flag, reset the
transcript and start platform recognition. -/
def startListening (env : Env) (st : AppState) : AppState :=
  if env.browserSupportsSpeechRecognition then
    { st with isListening := true, transcript := "" }
  else
    { st with error := some voiceInputUnsupportedMsg }

/-- `stopListening`: clear the listening flag and stop platform recognition. -/
def stopListening (st : AppState) : AppState :=
  { st with isListening := false }

/-- The `useEffect` on `transcript`: when a non-empty transcript arrives,
stop listening and run the lookup pipeline on it. -/
def transcriptEffect (env : Env) (st : AppState) (transcript : String) :
    AppState × List SynthCmd :=
  if transcript = "" then (st, [])
  else handleLocationSubmit env (stopListening st) transcript

/-- Interpretation of one synthesis command on the engine's utterance queue
(Web Speech API semantics): `cancel` flushes the whole queue, `speak`
appends an utterance.  The head of the queue is the utterance currently
playing or about to play; each queued utterance fires exactly one `start`
callback when it is reached. -/
def applySynthCmd (queue : List String) : SynthCmd → List String
  | SynthCmd.cancel => []
  | SynthCmd.speak t => queue ++ [t]

/-- Run a list of synthesis commands on the queue. -/
def runSynth (queue : List String) (cmds : List SynthCmd) : List String :=
  cmds.foldl applySynthCmd queue

/-- Whole-system state: the component's React state plus the browser's
speech-synthesis utterance queue. -/
structure Sys where
  app : AppState
  queue : List String
deriving DecidableEq

/-- Initial whole-system state: initial render, empty synthesis queue. -/
def initSys : Sys := { app := initState, queue := [] }

/-- The `visibilitychange` handler: when the document is hidden, cancel all
speech and clear the speaking flag; otherwise do nothing.  The handler is a
total function — it cannot throw. -/
def handleVisibilityChange (hidden : Bool) (s : Sys) : Sys :=
  if hidden then { app := { s.app with isSpeaking := false }, queue := [] }
  else s

/-- The external events the component reacts to: a press of the mic control,
arrival of a recognized transcript, the synthesis `start`, `end` and `error`
callbacks, and the document being hidden. -/
inductive Event where
  | micPress : Event
  | transcriptArrive : String → Event
  | synthStart : Event
  | synthEnd : Event
  | synthError : Event
  | visibilityHidden : Event
deriving DecidableEq

/-- One event step of the UI controller.  The mic button dispatches
`stopListening` when listening and `startListening` otherwise; a transcript
arrival runs the transcript effect and feeds its synthesis commands to the
queue; the utterance callbacks toggle the speaking flag (`start` only fires
when an utterance is queued, `end`/`error` retire the head); hiding the
document runs the visibility handler. -/
def step (env : Env) (s : Sys) : Event → Sys
  | Event.micPress =>
    if s.app.isListening then { s with app := stopListening s.app }
    else { s with app := startListening env s.app }
  | Event.transcriptArrive t =>
    let r := transcriptEffect env { s.app with transcript := t } t
    { app := r.1, queue := runSynth s.queue r.2 }
  | Event.synthStart =>
    match s.queue with
    | [] => s
    | _ :: _ => { s with app := { s.app with isSpeaking := true } }
  | Event.synthEnd =>
    match s.queue with
    | [] => s
    | _ :: rest => { app := { s.app with isSpeaking := false }, queue := rest }
  | Event.synthError =>
    match s.queue with
    | [] => s
    | _ :: rest => { app := { s.app with isSpeaking := false }, queue := rest }
  | Event.visibilityHidden => handleVisibilityChange true s

/-- Run a trace of events from a system state. -/
def runEvents (env : Env) (s : Sys) (es : List Event) : Sys :=
  es.foldl (step env) s

/-- The listening and speaking flags are not simultaneously on. -/
def audioFlagsExclusive (s : Sys) : Bool :=
  !(s.app.isListening && s.app.isSpeaking)

/-- Guard under which one event cannot break audio-flag exclusivity: the mic
is not pressed while speech is playing, and no synthesis `start` fires while
listening. -/
def guardOk (s : Sys) : Event → Bool
  | Event.micPress => !s.app.isSpeaking
  | Event.synthStart => !s.app.isListening
  | _ => true

/-- A trace is guarded when every event satisfies `guardOk` in the state in
which it fires. -/
def okTrace (env : Env) (s : Sys) : List Event → Bool
  | [] => true
  | e :: es => guardOk s e && okTrace env (step env s e) es

/-- The reading produced by a successful lookup for `location`: the opaque
provider's conditions wrapped with the submitted name as display name. -/
def resolvedReading (location : String) (p : ProviderConditions) : WeatherData :=
  { location := location, temperature := p.temperature
    humidity := p.humidity, windSpeed := p.windSpeed
    weatherDesc := p.weatherDesc }

/-- The lookup pipeline never touches the listening flag. -/
theorem handleLocationSubmit_isListening (env : Env) (st : AppState)
    (location : String) :
    (handleLocationSubmit env st location).1.isListening = st.isListening := by
  unfold handleLocationSubmit speakWeatherInfo
  split
  · rfl
  · split
    · rfl
    · split <;> rfl

/-- The lookup pipeline never touches the speaking flag (`setIsSpeaking` runs
only inside the utterance callbacks). -/
theorem handleLocationSubmit_isSpeaking (env : Env) (st : AppState)
    (location : String) :
    (handleLocationSubmit env st location).1.isSpeaking = st.isSpeaking := by
  unfold handleLocationSubmit speakWeatherInfo
  split
  · rfl
  · split
    · rfl
    · split <;> rfl

/-- Sample provider payload used to instantiate theorems: the spec's example
reading for Hyderabad. -/
def testConditions : ProviderConditions :=
  { temperature := 31, humidity := 60, windSpeed := 10, weatherDesc := "clear sky" }

/-- Sample environment: geocoding resolves only "Hyderabad", the provider
knows its coordinates, both browser capabilities present. -/
def testEnv : Env :=
  { getCoordinates := fun s =>
      if s = "Hyderabad" then some { lat := 17, lon := 78 } else none
    providerConditions := fun c =>
      if c = { lat := 17, lon := 78 } then some testConditions else none
    getAgricultureSuggestions := fun _ => ""
    numberToTelugu := fun n => toString n
    browserSupportsSpeechRecognition := true
    speechSynthesisSupported := true }

/-- Sample environment whose geocoding always fails. -/
def failEnv : Env := { testEnv with getCoordinates := fun _ => none }

/-- Sample environment whose geocoding always fails and whose browser lacks
speech synthesis. -/
def failNoSynthEnv : Env := { failEnv with speechSynthesisSupported := false }

/-- Sample environment whose browser has neither speech recognition nor
speech synthesis. -/
def noCapEnv : Env :=
  { testEnv with
    browserSupportsSpeechRecognition := false
    speechSynthesisSupported := false }

/-- Claim C1: when geocoding and the weather fetch both succeed, the lookup
pipeline ends with the reading shown — `weatherData` set to the resolved
reading, whose location field is the submitted name's display name, and no
error — and emits a cancel followed by speaking the fixed Telugu template
built from the Telugu number-words of the rounded temperature, humidity and
wind speed, the translated description and the advisory text. -/
theorem claim1_lookup_success_shows_and_speaks (env : Env) (st : AppState)
    (location : String) (c : Coordinates) (p : ProviderConditions)
    (hg : env.getCoordinates location = some c)
    (hw : env.providerConditions c = some p)
    (hs : env.speechSynthesisSupported = true) :
    (handleLocationSubmit env st location).1.weatherData =
      some (resolvedReading location p) ∧
    (resolvedReading location p).location = location ∧
    (handleLocationSubmit env st location).1.error = none ∧
    (handleLocationSubmit env st location).1.agricultureTips =
      some (effectiveSuggestions env (resolvedReading location p)) ∧
    (handleLocationSubmit env st location).2 =
      [SynthCmd.cancel,
       SynthCmd.speak (speakText env.numberToTelugu (resolvedReading location p)
         (effectiveSuggestions env (resolvedReading location p)))] := by
  unfold handleLocationSubmit getWeatherData speakWeatherInfo
  simp [hg, hw, hs, resolvedReading]

/-- Witness for C1 at the sample environment and the spec's Hyderabad
example. -/
theorem claim1_witness :
    (handleLocationSubmit testEnv initState "Hyderabad").1.weatherData =
      some (resolvedReading "Hyderabad" testConditions) ∧
    (resolvedReading "Hyderabad" testConditions).location = "Hyderabad" ∧
    (handleLocationSubmit testEnv initState "Hyderabad").1.error = none ∧
    (handleLocationSubmit testEnv initState "Hyderabad").1.agricultureTips =
      some (effectiveSuggestions testEnv (resolvedReading "Hyderabad" testConditions)) ∧
    (handleLocationSubmit testEnv initState "Hyderabad").2 =
      [SynthCmd.cancel,
       SynthCmd.speak (speakText testEnv.numberToTelugu
         (resolvedReading "Hyderabad" testConditions)
         (effectiveSuggestions testEnv (resolvedReading "Hyderabad" testConditions)))] :=
  claim1_lookup_success_shows_and_speaks testEnv initState "Hyderabad"
    { lat := 17, lon := 78 } testConditions (by decide) (by decide) rfl

/-- Claim C2: when geocoding or the weather fetch fails, the pipeline ends in
the error result — the fixed Telugu not-found message — and the
weather-reading slot of the view state is left unchanged. -/
theorem claim2_lookup_failure_error_reading_unchanged (env : Env)
    (st : AppState) (location : String)
    (h : (env.getCoordinates location).bind
      (fun c => getWeatherData env c location) = none) :
    (handleLocationSubmit env st location).1.error = some locationNotFoundMsg ∧
    (handleLocationSubmit env st location).1.weatherData = st.weatherData := by
  unfold handleLocationSubmit
  cases hg : env.getCoordinates location with
  | none => simp [hg]
  | some c =>
    rw [hg] at h
    simp only [Option.some_bind] at h
    simp [hg, h]

/-- Witness for C2 at the always-failing geocoder. -/
theorem claim2_witness :
    (handleLocationSubmit failEnv initState "Nowhere").1.error =
      some locationNotFoundMsg ∧
    (handleLocationSubmit failEnv initState "Nowhere").1.weatherData =
      initState.weatherData :=
  claim2_lookup_failure_error_reading_unchanged failEnv initState "Nowhere" rfl

/-- Claim C3 as stated fails: in a browser without speech synthesis,
`speakErrorMessage` is a no-op, so this failing lookup sets the error message
yet speaks nothing — a failing lookup does not always speak the fixed Telugu
error utterance. -/
theorem claim3_counterexample :
    (handleLocationSubmit failNoSynthEnv initState "Nowhere").1.error =
      some locationNotFoundMsg ∧
    (handleLocationSubmit failNoSynthEnv initState "Nowhere").2 = [] :=
  ⟨rfl, rfl⟩

/-- Claim C3 amended: when the browser supports speech synthesis, every
failing lookup sets the error result and speaks the fixed Telugu error
utterance. -/
theorem claim3_failure_speaks_error (env : Env) (st : AppState)
    (location : String) (hs : env.speechSynthesisSupported = true)
    (h : (env.getCoordinates location).bind
      (fun c => getWeatherData env c location) = none) :
    (handleLocationSubmit env st location).1.error = some locationNotFoundMsg ∧
    (handleLocationSubmit env st location).2 =
      [SynthCmd.speak locationNotFoundMsg] := by
  unfold handleLocationSubmit speakErrorMessage
  cases hg : env.getCoordinates location with
  | none => simp [hg, hs]
  | some c =>
    rw [hg] at h
    simp only [Option.some_bind] at h
    simp [hg, h, hs]

/-- Witness for the amended C3 at the always-failing geocoder in a
synthesis-capable browser. -/
theorem claim3_witness :
    (handleLocationSubmit failEnv initState "Nowhere").1.error =
      some locationNotFoundMsg ∧
    (handleLocationSubmit failEnv initState "Nowhere").2 =
      [SynthCmd.speak locationNotFoundMsg] :=
  claim3_failure_speaks_error failEnv initState "Nowhere" rfl rfl

/-- Claim C4: every entry of the nine-key table translates to its fixed
Telugu string, and any description whose lowercased form misses the table
passes through unchanged. -/
theorem claim4_translation_table (kv : String × String)
    (hk : kv ∈ weatherDescriptionsTelugu) (s : String)
    (hs : weatherDescriptionsTelugu.lookup (toLowerCase s) = none) :
    translateWeatherDesc kv.1 = kv.2 ∧ translateWeatherDesc s = s := by
  constructor
  · fin_cases hk <;> rfl
  · unfold translateWeatherDesc
    rw [hs]

/-- Witness for C4 at the "rain" entry and an untranslated description. -/
theorem claim4_witness :
    translateWeatherDesc ("rain", "వర్షం").1 = ("rain", "వర్షం").2 ∧
    translateWeatherDesc "Sunny" = "Sunny" :=
  claim4_translation_table ("rain", "వర్షం") (by decide) "Sunny" (by decide)

/-- Claim C10: the translation is case-insensitive — a string whose lowercase
form is a key of the table translates to that key's Telugu string whatever its
original casing, while a string whose lowercase form misses the table is
returned unmodified, casing preserved. -/
theorem claim10_case_insensitive_translation (s : String)
    (kv : String × String) (hk : kv ∈ weatherDescriptionsTelugu)
    (hlow : toLowerCase s = kv.1) (t : String)
    (ht : weatherDescriptionsTelugu.lookup (toLowerCase t) = none) :
    translateWeatherDesc s = kv.2 ∧ translateWeatherDesc t = t := by
  constructor
  · fin_cases hk <;> (unfold translateWeatherDesc; rw [hlow]; rfl)
  · unfold translateWeatherDesc
    rw [ht]

/-- Witness for C10 at the mixed-case "Clear Sky" and the untranslated
"Foggy". -/
theorem claim10_witness :
    translateWeatherDesc "Clear Sky" = "పారదర్శక ఆకాశం" ∧
    translateWeatherDesc "Foggy" = "Foggy" :=
  claim10_case_insensitive_translation "Clear Sky"
    ("clear sky", "పారదర్శక ఆకాశం") (by decide) (by decide) "Foggy" (by decide)

/-- Claim C5: `speakWeatherInfo` always cancels before speaking, so whatever
utterances were queued or playing before — in particular after a second
invocation while the first utterance plays — the synthesis queue ends holding
exactly the latest utterance: at most one utterance is active, and exactly one
start callback is pending after the second invocation. -/
theorem claim5_single_slot_utterance (env : Env) (st1 st2 : AppState)
    (d1 d2 : WeatherData) (t1 t2 : String) (q : List String)
    (hs : env.speechSynthesisSupported = true) :
    runSynth (runSynth q (speakWeatherInfo env st1 d1 t1).2)
      (speakWeatherInfo env st2 d2 t2).2 =
      [speakText env.numberToTelugu d2 t2] ∧
    (runSynth (runSynth q (speakWeatherInfo env st1 d1 t1).2)
      (speakWeatherInfo env st2 d2 t2).2).length = 1 := by
  unfold speakWeatherInfo runSynth applySynthCmd
  simp [hs]

/-- Witness for C5: two successive speech requests on the sample reading
leave exactly the second utterance queued. -/
theorem claim5_witness :
    runSynth (runSynth ["playing"]
      (speakWeatherInfo testEnv initState (resolvedReading "Hyderabad" testConditions)
        defaultSuggestions).2)
      (speakWeatherInfo testEnv initState (resolvedReading "Hyderabad" testConditions)
        defaultSuggestions).2 =
      [speakText testEnv.numberToTelugu (resolvedReading "Hyderabad" testConditions)
        defaultSuggestions] ∧
    (runSynth (runSynth ["playing"]
      (speakWeatherInfo testEnv initState (resolvedReading "Hyderabad" testConditions)
        defaultSuggestions).2)
      (speakWeatherInfo testEnv initState (resolvedReading "Hyderabad" testConditions)
        defaultSuggestions).2).length = 1 :=
  claim5_single_slot_utterance testEnv initState initState
    (resolvedReading "Hyderabad" testConditions)
    (resolvedReading "Hyderabad" testConditions)
    defaultSuggestions defaultSuggestions ["playing"] rfl

/-- Claim C6: when the document loses visibility the handler cancels all
speech — the utterance queue is flushed — and the speaking flag transitions
to off; the handler is a total function, so it cannot throw. -/
theorem claim6_visibility_hidden_stops_speech (s : Sys) :
    (handleVisibilityChange true s).app.isSpeaking = false ∧
    (handleVisibilityChange true s).queue = [] :=
  ⟨rfl, rfl⟩

/-- Claim C7: when a non-empty recognized transcript arrives while the
listening flag is on, the effect calls `stopListening` before running the
lookup pipeline, and the pipeline never touches the flag: the controller ends
not listening. -/
theorem claim7_transcript_stops_listening (env : Env) (st : AppState)
    (t : String) (_hl : st.isListening = true) (ht : t ≠ "") :
    (transcriptEffect env st t).1.isListening = false := by
  unfold transcriptEffect
  rw [if_neg ht, handleLocationSubmit_isListening]
  rfl

/-- Witness for C7: a transcript arriving in the listening state stops
listening. -/
theorem claim7_witness :
    (transcriptEffect testEnv { initState with isListening := true }
      "Hyderabad").1.isListening = false :=
  claim7_transcript_stops_listening testEnv
    { initState with isListening := true } "Hyderabad" rfl (by decide)

/-- Claim C9: without browser speech recognition a mic press sets the fixed
unsupported-input error and the listening flag stays off; without speech
synthesis a speech request sets the unsupported-output error and emits no
utterance; both handlers are total functions, so neither case is fatal. -/
theorem claim9_unsupported_capabilities (env : Env) (st : AppState)
    (data : WeatherData) (tips : String)
    (hr : env.browserSupportsSpeechRecognition = false)
    (hl : st.isListening = false)
    (hs : env.speechSynthesisSupported = false) :
    (startListening env st).error = some voiceInputUnsupportedMsg ∧
    (startListening env st).isListening = false ∧
    (speakWeatherInfo env st data tips).1.error = some voiceOutputUnsupportedMsg ∧
    (speakWeatherInfo env st data tips).2 = [] := by
  unfold startListening speakWeatherInfo
  simp [hr, hs, hl]

/-- Witness for C9 in a browser with neither capability. -/
theorem claim9_witness :
    (startListening noCapEnv initState).error = some voiceInputUnsupportedMsg ∧
    (startListening noCapEnv initState).isListening = false ∧
    (speakWeatherInfo noCapEnv initState (resolvedReading "Hyderabad" testConditions)
      defaultSuggestions).1.error = some voiceOutputUnsupportedMsg ∧
    (speakWeatherInfo noCapEnv initState (resolvedReading "Hyderabad" testConditions)
      defaultSuggestions).2 = [] :=
  claim9_unsupported_capabilities noCapEnv initState
    (resolvedReading "Hyderabad" testConditions) defaultSuggestions rfl rfl rfl

/-- A realistic trace violating audio-flag exclusivity: press the mic, speak
"Hyderabad", let the synthesized report start playing, then press the mic
again while it plays. -/
def micWhileSpeakingTrace : List Event :=
  [Event.micPress, Event.transcriptArrive "Hyderabad",
   Event.synthStart, Event.micPress]

/-- Claim C8 as stated fails: `startListening` does not consult the speaking
flag, so pressing the mic while the synthesized report is playing reaches a
state with the listening flag and the speaking flag both on. -/
theorem claim8_counterexample :
    (runEvents testEnv initSys micWhileSpeakingTrace).app.isListening = true ∧
    (runEvents testEnv initSys micWhileSpeakingTrace).app.isSpeaking = true :=
  ⟨rfl, rfl⟩

/-- One guarded event preserves audio-flag exclusivity: no handler sets both
flags, mic presses are guarded by not speaking and synthesis starts by not
listening. -/
theorem guardOk_step_exclusive (env : Env) (s : Sys) (e : Event)
    (hinv : audioFlagsExclusive s = true) (hg : guardOk s e = true) :
    audioFlagsExclusive (step env s e) = true := by
  cases e with
  | micPress =>
    simp only [guardOk, Bool.not_eq_true'] at hg
    unfold step audioFlagsExclusive stopListening startListening
    by_cases hl : s.app.isListening
    · simp [hl]
    · by_cases hr : env.browserSupportsSpeechRecognition <;> simp [hl, hr, hg]
  | transcriptArrive t =>
    unfold step audioFlagsExclusive transcriptEffect
    by_cases ht : t = ""
    · simpa [ht, audioFlagsExclusive] using hinv
    · simp only [ht, if_neg, ite_false]
      rw [handleLocationSubmit_isListening, handleLocationSubmit_isSpeaking]
      simp [stopListening]
  | synthStart =>
    simp only [guardOk, Bool.not_eq_true'] at hg
    unfold step audioFlagsExclusive
    cases s.queue <;> simp [hg]
  | synthEnd =>
    unfold step audioFlagsExclusive
    cases s.queue
    · simpa [audioFlagsExclusive] using hinv
    · simp
  | synthError =>
    unfold step audioFlagsExclusive
    cases s.queue
    · simpa [audioFlagsExclusive] using hinv
    · simp
  | visibilityHidden =>
    unfold step handleVisibilityChange audioFlagsExclusive
    simp

/-- Claim C8 amended: the two flags are not mutually exclusive in general
(see the mic-press-while-speaking counterexample); exclusivity does hold
along every trace in which the mic is never pressed while the speaking flag
is on and no synthesis start callback is delivered while the listening flag
is on. -/
theorem claim8_guarded_audio_exclusive (env : Env) (es : List Event) (s : Sys)
    (hinv : audioFlagsExclusive s = true)
    (hok : okTrace env s es = true) :
    audioFlagsExclusive (runEvents env s es) = true := by
  induction es generalizing s with
  | nil => exact hinv
  | cons e es ih =>
    simp only [okTrace, Bool.and_eq_true] at hok
    exact ih (step env s e) (guardOk_step_exclusive env s e hinv hok.1) hok.2

/-- Witness for the amended C8: a guarded trace — mic press, transcript,
synthesis start after listening stopped — keeps the flags exclusive. -/
theorem claim8_witness :
    audioFlagsExclusive initSys = true ∧
    okTrace testEnv initSys
      [Event.micPress, Event.transcriptArrive "Hyderabad", Event.synthStart] = true ∧
    audioFlagsExclusive (runEvents testEnv initSys
      [Event.micPress, Event.transcriptArrive "Hyderabad", Event.synthStart]) = true :=
  ⟨rfl, rfl,
    claim8_guarded_audio_exclusive testEnv
      [Event.micPress, Event.transcriptArrive "Hyderabad", Event.synthStart]
      initSys rfl rfl⟩

end Shield
